import Mathlib

/-
Verification of the physics-validator library
(src/tools/physics-validator/src/lib.rs).

The library is five pure functions over IEEE double-precision floats plus
three constants.  We model an f64 value by the type `FP`: it is either NaN,
a signed infinity, or a finite value carried as an exact real number.
Arithmetic on finite values is exact real arithmetic; the IEEE rules for
propagating NaN and infinities and for division by zero are modelled
faithfully.  Rounding, overflow/underflow and the sign of zero are not
modelled: a finite result stands for the real number the float computation
approximates, and negative zero is identified with zero.
-/

/-- Model of an IEEE double value: NaN, a signed infinity
(`inf false` is +infinity, `inf true` is -infinity), or a finite value. -/
inductive FP where
  | nan : FP
  | inf : Bool → FP
  | fin : ℝ → FP

namespace FP

/-- Whether the value is NaN. -/
def isNaN : FP → Bool
  | nan => true
  | _ => false

/-- Whether the value is finite (neither NaN nor an infinity). -/
def isFinite : FP → Bool
  | fin _ => true
  | _ => false

/-- IEEE negation. -/
def neg : FP → FP
  | nan => nan
  | inf s => inf (!s)
  | fin q => fin (-q)

/-- IEEE multiplication: NaN propagates; infinity times zero is NaN;
infinity times a nonzero value is an infinity with the product sign;
finite times finite is exact. -/
noncomputable def mul : FP → FP → FP
  | nan, _ => nan
  | inf _, nan => nan
  | fin _, nan => nan
  | inf s, inf t => inf (Bool.xor s t)
  | inf s, fin q => if q = 0 then nan else inf (Bool.xor s (decide (q < 0)))
  | fin q, inf s => if q = 0 then nan else inf (Bool.xor (decide (q < 0)) s)
  | fin a, fin b => fin (a * b)

/-- IEEE division: NaN propagates; infinity over infinity is NaN; infinity
over a finite value is a signed infinity; a finite value over an infinity
is zero; a nonzero finite value over zero is a signed infinity; zero over
zero is NaN; otherwise exact. -/
noncomputable def div : FP → FP → FP
  | nan, _ => nan
  | inf _, nan => nan
  | fin _, nan => nan
  | inf _, inf _ => nan
  | inf s, fin q => inf (Bool.xor s (decide (q < 0)))
  | fin _, inf _ => fin 0
  | fin a, fin b =>
      if b = 0 then (if a = 0 then nan else inf (decide (a < 0)))
      else fin (a / b)

/-- IEEE square root: NaN and -infinity (and any negative finite value)
give NaN; +infinity gives +infinity; a nonnegative finite value gives its
exact square root. -/
noncomputable def sqrt : FP → FP
  | nan => nan
  | inf s => if s then nan else inf false
  | fin q => if q < 0 then nan else fin (Real.sqrt q)

/-- `x.powi(3)`: the cube.  NaN propagates; an infinity keeps its sign
under an odd power; finite values are cubed exactly. -/
noncomputable def powi3 : FP → FP
  | nan => nan
  | inf s => inf s
  | fin q => fin (q ^ 3)

/-- The value compares greater than or equal to zero: +infinity, or a
nonnegative finite value.  NaN and -infinity do not. -/
def Nonneg : FP → Prop
  | nan => False
  | inf s => s = false
  | fin q => 0 ≤ q

end FP

/-- Gravitational constant, `pub const G: f64 = 6.67430e-11`. -/
noncomputable def G : ℝ := 6.67430e-11

/-- Earth's mass, `pub const EARTH_MASS: f64 = 5.972e24`. -/
noncomputable def EARTH_MASS : ℝ := 5.972e24

/-- Earth's radius, `pub const EARTH_RADIUS: f64 = 6.371e6`. -/
noncomputable def EARTH_RADIUS : ℝ := 6.371e6

/-- The exact value of the double constant `std::f64::consts::PI`. -/
noncomputable def PI : ℝ := 884279719003555 / 281474976710656

/-- `orbital_velocity(mass, radius)`, from the source:
`(G * mass / radius).sqrt()`. -/
noncomputable def orbital_velocity (mass radius : FP) : FP :=
  FP.sqrt (FP.div (FP.mul (FP.fin G) mass) radius)

/-- `orbital_period(mass, radius)`, from the source:
`2.0 * std::f64::consts::PI * (radius.powi(3) / (G * mass)).sqrt()`. -/
noncomputable def orbital_period (mass radius : FP) : FP :=
  FP.mul (FP.mul (FP.fin 2) (FP.fin PI))
    (FP.sqrt (FP.div (FP.powi3 radius) (FP.mul (FP.fin G) mass)))

/-- `escape_velocity(mass, radius)`, from the source:
`(2.0 * G * mass / radius).sqrt()`. -/
noncomputable def escape_velocity (mass radius : FP) : FP :=
  FP.sqrt (FP.div (FP.mul (FP.mul (FP.fin 2) (FP.fin G)) mass) radius)

/-- `gravitational_force(mass1, mass2, distance)`, from the source:
`G * mass1 * mass2 / (distance * distance)`. -/
noncomputable def gravitational_force (mass1 mass2 distance : FP) : FP :=
  FP.div (FP.mul (FP.mul (FP.fin G) mass1) mass2) (FP.mul distance distance)

/-- `gravitational_acceleration(mass, distance)`, from the source:
`G * mass / (distance * distance)`. -/
noncomputable def gravitational_acceleration (mass distance : FP) : FP :=
  FP.div (FP.mul (FP.fin G) mass) (FP.mul distance distance)

/-- Stated formula of the spec for orbital velocity: `v = sqrt(G*M/r)`. -/
noncomputable def specOrbitalVelocity (M r : FP) : FP :=
  FP.sqrt (FP.div (FP.mul (FP.fin G) M) r)

/-- Stated formula of the spec for orbital period:
`T = 2*pi*sqrt(r^3/(G*M))`, with `r^3` computed before dividing by `G*M`. -/
noncomputable def specOrbitalPeriod (M r : FP) : FP :=
  FP.mul (FP.mul (FP.fin 2) (FP.fin PI))
    (FP.sqrt (FP.div (FP.powi3 r) (FP.mul (FP.fin G) M)))

/-- Stated formula of the spec for escape velocity:
`v_esc = sqrt(2*G*M/r)`. -/
noncomputable def specEscapeVelocity (M r : FP) : FP :=
  FP.sqrt (FP.div (FP.mul (FP.mul (FP.fin 2) (FP.fin G)) M) r)

/-- Stated formula of the spec for gravitational force:
`F = G*m1*m2/d^2`, with `d^2` computed by squaring `d`. -/
noncomputable def specGravitationalForce (m1 m2 d : FP) : FP :=
  FP.div (FP.mul (FP.mul (FP.fin G) m1) m2) (FP.mul d d)

/-- Stated formula of the spec for gravitational acceleration:
`a = G*M/d^2`. -/
noncomputable def specGravitationalAcceleration (M d : FP) : FP :=
  FP.div (FP.mul (FP.fin G) M) (FP.mul d d)

theorem FP.mul_fin (a b : ℝ) : FP.mul (FP.fin a) (FP.fin b) = FP.fin (a * b) := rfl

theorem FP.div_fin (a b : ℝ) (hb : b ≠ 0) :
    FP.div (FP.fin a) (FP.fin b) = FP.fin (a / b) := by
  simp [FP.div, hb]

theorem FP.sqrt_fin (q : ℝ) (hq : 0 ≤ q) :
    FP.sqrt (FP.fin q) = FP.fin (Real.sqrt q) := by
  simp [FP.sqrt, not_lt.2 hq]

theorem G_pos : 0 < G := by norm_num [G]

theorem PI_pos : 0 < PI := by norm_num [PI]

theorem orbital_velocity_eval (M r : ℝ) (hM : 0 < M) (hr : 0 < r) :
    orbital_velocity (FP.fin M) (FP.fin r) = FP.fin (Real.sqrt (G * M / r)) := by
  have hG := G_pos
  rw [orbital_velocity, FP.mul_fin, FP.div_fin _ _ hr.ne', FP.sqrt_fin]
  positivity

theorem escape_velocity_eval (M r : ℝ) (hM : 0 < M) (hr : 0 < r) :
    escape_velocity (FP.fin M) (FP.fin r) = FP.fin (Real.sqrt (2 * G * M / r)) := by
  have hG := G_pos
  rw [escape_velocity, FP.mul_fin, FP.mul_fin, FP.div_fin _ _ hr.ne', FP.sqrt_fin]
  positivity

theorem orbital_period_eval (M r : ℝ) (hM : 0 < M) (hr : 0 < r) :
    orbital_period (FP.fin M) (FP.fin r) =
      FP.fin (2 * PI * Real.sqrt (r ^ 3 / (G * M))) := by
  have hG := G_pos
  have hGM : G * M ≠ 0 := by positivity
  rw [orbital_period]
  rw [show FP.powi3 (FP.fin r) = FP.fin (r ^ 3) from rfl]
  rw [show FP.mul (FP.fin G) (FP.fin M) = FP.fin (G * M) from rfl]
  rw [FP.div_fin _ _ hGM, FP.sqrt_fin _ (by positivity)]
  rw [show FP.mul (FP.fin 2) (FP.fin PI) = FP.fin (2 * PI) from rfl, FP.mul_fin]

/-- C1: each of the five public functions returns exactly the evaluation of
its stated closed-form formula with the shown grouping, at every pair of
inputs. -/
theorem spec_formulas_match_code :
    (∀ M r, specOrbitalVelocity M r = orbital_velocity M r) ∧
    (∀ M r, specOrbitalPeriod M r = orbital_period M r) ∧
    (∀ M r, specEscapeVelocity M r = escape_velocity M r) ∧
    (∀ m1 m2 d, specGravitationalForce m1 m2 d = gravitational_force m1 m2 d) ∧
    (∀ M d, specGravitationalAcceleration M d = gravitational_acceleration M d) :=
  ⟨fun _ _ => rfl, fun _ _ => rfl, fun _ _ => rfl, fun _ _ _ => rfl, fun _ _ => rfl⟩

/-- C2: the three public constants have exactly the values stated in the
spec: G = 6.67430e-11, reference mass = 5.972e24, reference radius =
6.371e6. -/
theorem constants_match_spec :
    G = 6.67430e-11 ∧ EARTH_MASS = 5.972e24 ∧ EARTH_RADIUS = 6.371e6 :=
  ⟨rfl, rfl, rfl⟩

/-- C3: each of the five functions is total: for every combination of
finite inputs, the call returns a value of the double type (possibly an
infinity or NaN) and there is no error outcome to return. -/
theorem functions_total (mass radius m1 m2 dist : FP)
    (hmass : mass.isFinite = true) (hradius : radius.isFinite = true)
    (hm1 : m1.isFinite = true) (hm2 : m2.isFinite = true)
    (hdist : dist.isFinite = true) :
    (∃ v : FP, orbital_velocity mass radius = v) ∧
    (∃ v : FP, orbital_period mass radius = v) ∧
    (∃ v : FP, escape_velocity mass radius = v) ∧
    (∃ v : FP, gravitational_force m1 m2 dist = v) ∧
    (∃ v : FP, gravitational_acceleration m1 dist = v) :=
  ⟨⟨_, rfl⟩, ⟨_, rfl⟩, ⟨_, rfl⟩, ⟨_, rfl⟩, ⟨_, rfl⟩⟩

/-- Witness for C3 at concrete finite inputs. -/
theorem functions_total_witness :
    (∃ v : FP, orbital_velocity (FP.fin 1) (FP.fin 2) = v) ∧
    (∃ v : FP, orbital_period (FP.fin 1) (FP.fin 2) = v) ∧
    (∃ v : FP, escape_velocity (FP.fin 1) (FP.fin 2) = v) ∧
    (∃ v : FP, gravitational_force (FP.fin 1) (FP.fin 3) (FP.fin 2) = v) ∧
    (∃ v : FP, gravitational_acceleration (FP.fin 1) (FP.fin 2) = v) :=
  functions_total (FP.fin 1) (FP.fin 2) (FP.fin 1) (FP.fin 3) (FP.fin 2)
    rfl rfl rfl rfl rfl

theorem FP.mul_neg_self (d : FP) : FP.mul (FP.neg d) (FP.neg d) = FP.mul d d := by
  cases d with
  | nan => rfl
  | inf s => cases s <;> rfl
  | fin q =>
      show FP.fin (-q * -q) = FP.fin (q * q)
      rw [neg_mul_neg]

/-- C9: the two distance-based functions depend on the distance only
through its square: negating the distance gives exactly the same value, and
a finite nonzero (in particular negative) distance with finite masses gives
a finite value rather than NaN or an error. -/
theorem distance_sign_invariance :
    (∀ m1 m2 d : FP,
      gravitational_force m1 m2 (FP.neg d) = gravitational_force m1 m2 d) ∧
    (∀ M d : FP,
      gravitational_acceleration M (FP.neg d) = gravitational_acceleration M d) ∧
    (∀ m1 m2 d : ℝ, d ≠ 0 →
      ∃ q : ℝ, gravitational_force (FP.fin m1) (FP.fin m2) (FP.fin d) = FP.fin q) ∧
    (∀ M d : ℝ, d ≠ 0 →
      ∃ q : ℝ, gravitational_acceleration (FP.fin M) (FP.fin d) = FP.fin q) := by
  have hdd : ∀ d : ℝ, d ≠ 0 → d * d ≠ 0 := fun d hd => mul_ne_zero hd hd
  refine ⟨?_, ?_, ?_, ?_⟩
  · intro m1 m2 d
    rw [gravitational_force, gravitational_force, FP.mul_neg_self]
  · intro M d
    rw [gravitational_acceleration, gravitational_acceleration, FP.mul_neg_self]
  · intro m1 m2 d hd
    refine ⟨G * m1 * m2 / (d * d), ?_⟩
    rw [gravitational_force, FP.mul_fin, FP.mul_fin, FP.mul_fin,
      FP.div_fin _ _ (hdd d hd)]
  · intro M d hd
    refine ⟨G * M / (d * d), ?_⟩
    rw [gravitational_acceleration, FP.mul_fin, FP.mul_fin,
      FP.div_fin _ _ (hdd d hd)]

/-- Witness for C9 at the concrete distance 2 (so negated distance -2). -/
theorem distance_sign_invariance_witness :
    gravitational_force (FP.fin 1) (FP.fin 1) (FP.neg (FP.fin 2)) =
        gravitational_force (FP.fin 1) (FP.fin 1) (FP.fin 2) ∧
    (∃ q : ℝ,
      gravitational_force (FP.fin 1) (FP.fin 1) (FP.fin (-2)) = FP.fin q) :=
  ⟨distance_sign_invariance.1 (FP.fin 1) (FP.fin 1) (FP.fin 2),
    distance_sign_invariance.2.2.1 1 1 (-2) (by norm_num)⟩

theorem FP.sqrt_shape (x : FP) :
    FP.sqrt x = FP.nan ∨ FP.sqrt x = FP.inf false ∨
      ∃ v : ℝ, FP.sqrt x = FP.fin v ∧ 0 ≤ v := by
  cases x with
  | nan => exact Or.inl rfl
  | inf s => cases s with
    | true => exact Or.inl rfl
    | false => exact Or.inr (Or.inl rfl)
  | fin q =>
      by_cases hq : q < 0
      · exact Or.inl (by simp [FP.sqrt, hq])
      · exact Or.inr (Or.inr ⟨Real.sqrt q, by simp [FP.sqrt, hq], Real.sqrt_nonneg q⟩)

/-- C10: orbital_velocity, orbital_period and escape_velocity never return
a negative value: at every pair of inputs the result is NaN or compares
greater than or equal to zero. -/
theorem sqrt_functions_nonneg :
    ∀ mass radius : FP,
      ((orbital_velocity mass radius).isNaN = true ∨
        FP.Nonneg (orbital_velocity mass radius)) ∧
      ((orbital_period mass radius).isNaN = true ∨
        FP.Nonneg (orbital_period mass radius)) ∧
      ((escape_velocity mass radius).isNaN = true ∨
        FP.Nonneg (escape_velocity mass radius)) := by
  have h2PI : (0:ℝ) < 2 * PI := by have := PI_pos; linarith
  have sqrtCase : ∀ x : FP, (FP.sqrt x).isNaN = true ∨ FP.Nonneg (FP.sqrt x) := by
    intro x
    rcases FP.sqrt_shape x with h | h | ⟨v, h, hv⟩
    · exact Or.inl (by rw [h]; rfl)
    · exact Or.inr (by rw [h]; rfl)
    · exact Or.inr (by rw [h]; exact hv)
  intro mass radius
  refine ⟨sqrtCase _, ?_, sqrtCase _⟩
  rw [orbital_period]
  rw [show FP.mul (FP.fin 2) (FP.fin PI) = FP.fin (2 * PI) from rfl]
  rcases FP.sqrt_shape (FP.div (FP.powi3 radius) (FP.mul (FP.fin G) mass)) with
    h | h | ⟨v, h, hv⟩
  · rw [h]
    exact Or.inl rfl
  · rw [h]
    refine Or.inr ?_
    show (if (2 * PI : ℝ) = 0 then FP.nan
      else FP.inf (Bool.xor (decide ((2 * PI : ℝ) < 0)) false)).Nonneg
    rw [if_neg h2PI.ne', decide_eq_false (not_lt.2 h2PI.le)]
    rfl
  · rw [h, FP.mul_fin]
    exact Or.inr (mul_nonneg h2PI.le hv)

theorem FP.sqrt_not_finite (x : FP) (hx : x.isFinite = false) :
    (FP.sqrt x).isFinite = false := by
  cases x with
  | nan => rfl
  | inf s => cases s <;> rfl
  | fin q => simp [FP.isFinite] at hx

theorem FP.div_fin_zero_not_finite (a : ℝ) :
    (FP.div (FP.fin a) (FP.fin 0)).isFinite = false := by
  by_cases ha : a = 0 <;> simp [FP.div, ha, FP.isFinite]

/-- Counterexample to C4: orbital_period called with radius 0 and the
finite mass 5.972e24 returns a finite value (namely 0), not an infinity or
NaN. -/
theorem orbital_period_zero_radius_finite :
    (orbital_period (FP.fin EARTH_MASS) (FP.fin 0)).isFinite = true := by
  have hGM : G * EARTH_MASS ≠ 0 := by norm_num [G, EARTH_MASS]
  rw [orbital_period]
  rw [show FP.powi3 (FP.fin 0) = FP.fin 0 from by
    show FP.fin ((0:ℝ) ^ 3) = FP.fin 0
    norm_num]
  rw [show FP.mul (FP.fin G) (FP.fin EARTH_MASS) = FP.fin (G * EARTH_MASS) from rfl]
  rw [FP.div_fin _ _ hGM, zero_div, FP.sqrt_fin _ le_rfl, Real.sqrt_zero]
  rfl

/-- C4 amended: with radius or distance 0 and the other inputs finite,
orbital_velocity, escape_velocity, gravitational_force and
gravitational_acceleration return a non-finite result; orbital_period
instead returns the finite value 0 whenever the mass is finite and nonzero,
and NaN when the mass is 0. -/
theorem zero_radius_behavior :
    (∀ m : ℝ, (orbital_velocity (FP.fin m) (FP.fin 0)).isFinite = false) ∧
    (∀ m : ℝ, (escape_velocity (FP.fin m) (FP.fin 0)).isFinite = false) ∧
    (∀ m1 m2 : ℝ,
      (gravitational_force (FP.fin m1) (FP.fin m2) (FP.fin 0)).isFinite = false) ∧
    (∀ m : ℝ,
      (gravitational_acceleration (FP.fin m) (FP.fin 0)).isFinite = false) ∧
    (∀ m : ℝ, m ≠ 0 → orbital_period (FP.fin m) (FP.fin 0) = FP.fin 0) ∧
    orbital_period (FP.fin 0) (FP.fin 0) = FP.nan := by
  have hzz : FP.mul (FP.fin 0) (FP.fin 0) = FP.fin 0 := by
    show FP.fin ((0:ℝ) * 0) = FP.fin 0
    norm_num
  refine ⟨?_, ?_, ?_, ?_, ?_, ?_⟩
  · intro m
    rw [orbital_velocity, FP.mul_fin]
    exact FP.sqrt_not_finite _ (FP.div_fin_zero_not_finite _)
  · intro m
    rw [escape_velocity, FP.mul_fin, FP.mul_fin]
    exact FP.sqrt_not_finite _ (FP.div_fin_zero_not_finite _)
  · intro m1 m2
    rw [gravitational_force, FP.mul_fin, FP.mul_fin, hzz]
    exact FP.div_fin_zero_not_finite _
  · intro m
    rw [gravitational_acceleration, FP.mul_fin, hzz]
    exact FP.div_fin_zero_not_finite _
  · intro m hm
    have hGm : G * m ≠ 0 := mul_ne_zero G_pos.ne' hm
    rw [orbital_period]
    rw [show FP.powi3 (FP.fin 0) = FP.fin 0 from by
      show FP.fin ((0:ℝ) ^ 3) = FP.fin 0
      norm_num]
    rw [show FP.mul (FP.fin G) (FP.fin m) = FP.fin (G * m) from rfl]
    rw [FP.div_fin _ _ hGm, zero_div, FP.sqrt_fin _ le_rfl, Real.sqrt_zero]
    rw [show FP.mul (FP.fin 2) (FP.fin PI) = FP.fin (2 * PI) from rfl, FP.mul_fin]
    norm_num
  · rw [orbital_period]
    rw [show FP.powi3 (FP.fin 0) = FP.fin 0 from by
      show FP.fin ((0:ℝ) ^ 3) = FP.fin 0
      norm_num]
    rw [show FP.mul (FP.fin G) (FP.fin 0) = FP.fin 0 from by
      show FP.fin (G * 0) = FP.fin 0
      norm_num]
    rw [show FP.div (FP.fin 0) (FP.fin 0) = FP.nan from by simp [FP.div]]
    rfl

/-- Witness for the amended C4 at mass 1: orbital_period at radius 0
returns the finite value 0 and orbital_velocity at radius 0 is non-finite. -/
theorem zero_radius_behavior_witness :
    (orbital_velocity (FP.fin 1) (FP.fin 0)).isFinite = false ∧
    orbital_period (FP.fin 1) (FP.fin 0) = FP.fin 0 :=
  ⟨zero_radius_behavior.1 1, zero_radius_behavior.2.2.2.2.1 1 one_ne_zero⟩

/-- C5: for every mass M > 0 and radius r > 0, the ratio
escape_velocity(M,r) / orbital_velocity(M,r) equals sqrt 2 with relative
error below 1e-6 (in the model the ratio is exactly sqrt 2). -/
theorem escape_to_orbital_is_sqrt_two (M r : ℝ) (hM : 0 < M) (hr : 0 < r) :
    ∃ q : ℝ,
      FP.div (escape_velocity (FP.fin M) (FP.fin r))
          (orbital_velocity (FP.fin M) (FP.fin r)) = FP.fin q ∧
      |q - Real.sqrt 2| < 1e-6 * Real.sqrt 2 := by
  have hG := G_pos
  have hx : 0 < G * M / r := by positivity
  have hsx : 0 < Real.sqrt (G * M / r) := Real.sqrt_pos.2 hx
  refine ⟨Real.sqrt 2, ?_, ?_⟩
  · rw [escape_velocity_eval M r hM hr, orbital_velocity_eval M r hM hr,
      FP.div_fin _ _ hsx.ne']
    congr 1
    rw [show 2 * G * M / r = 2 * (G * M / r) by ring,
      Real.sqrt_mul (by norm_num : (0:ℝ) ≤ 2), mul_div_assoc,
      div_self hsx.ne', mul_one]
  · have h2 : 0 < Real.sqrt 2 := Real.sqrt_pos.2 (by norm_num)
    rw [sub_self, abs_zero]
    positivity

/-- Witness for C5 at M = 1, r = 1. -/
theorem escape_to_orbital_is_sqrt_two_witness :
    ∃ q : ℝ,
      FP.div (escape_velocity (FP.fin 1) (FP.fin 1))
          (orbital_velocity (FP.fin 1) (FP.fin 1)) = FP.fin q ∧
      |q - Real.sqrt 2| < 1e-6 * Real.sqrt 2 :=
  escape_to_orbital_is_sqrt_two 1 1 one_pos one_pos

/-- Counterexample to C6: with the test mass m = 0 (and M = 1, r = 1) the
quotient gravitational_force(M, m, r) / m is NaN, so it does not equal
gravitational_acceleration(M, r) within any relative error. -/
theorem force_over_zero_mass_not_accel :
    ¬ ∃ q a : ℝ,
      FP.div (gravitational_force (FP.fin 1) (FP.fin 0) (FP.fin 1))
          (FP.fin 0) = FP.fin q ∧
      gravitational_acceleration (FP.fin 1) (FP.fin 1) = FP.fin a ∧
      |q - a| < 1e-6 * |a| := by
  rintro ⟨q, a, hq, -, -⟩
  have hforce : gravitational_force (FP.fin 1) (FP.fin 0) (FP.fin 1) =
      FP.fin 0 := by
    rw [gravitational_force, FP.mul_fin, FP.mul_fin, FP.mul_fin,
      FP.div_fin _ _ (by norm_num : (1:ℝ) * 1 ≠ 0)]
    norm_num
  rw [hforce, show FP.div (FP.fin 0) (FP.fin 0) = FP.nan from by simp [FP.div]]
    at hq
  exact FP.noConfusion hq

/-- C6 amended: for every mass M > 0, radius r > 0 and every nonzero test
mass m, gravitational_force(M, m, r) / m equals
gravitational_acceleration(M, r) with relative error below 1e-6 (in the
model the two are exactly equal). -/
theorem force_over_mass_is_accel (M r m : ℝ) (hM : 0 < M) (hr : 0 < r)
    (hm : m ≠ 0) :
    ∃ q a : ℝ,
      FP.div (gravitational_force (FP.fin M) (FP.fin m) (FP.fin r))
          (FP.fin m) = FP.fin q ∧
      gravitational_acceleration (FP.fin M) (FP.fin r) = FP.fin a ∧
      |q - a| < 1e-6 * |a| := by
  have hG := G_pos
  have hrr : r * r ≠ 0 := mul_ne_zero hr.ne' hr.ne'
  have haccel : 0 < G * M / (r * r) := by positivity
  refine ⟨G * M / (r * r), G * M / (r * r), ?_, ?_, ?_⟩
  · rw [gravitational_force, FP.mul_fin, FP.mul_fin, FP.mul_fin,
      FP.div_fin _ _ hrr, FP.div_fin _ _ hm]
    congr 1
    field_simp
    ring
  · rw [gravitational_acceleration, FP.mul_fin, FP.mul_fin, FP.div_fin _ _ hrr]
  · rw [sub_self, abs_zero, abs_of_pos haccel]
    positivity

/-- Witness for the amended C6 at M = 1, r = 1, m = 1. -/
theorem force_over_mass_is_accel_witness :
    ∃ q a : ℝ,
      FP.div (gravitational_force (FP.fin 1) (FP.fin 1) (FP.fin 1))
          (FP.fin 1) = FP.fin q ∧
      gravitational_acceleration (FP.fin 1) (FP.fin 1) = FP.fin a ∧
      |q - a| < 1e-6 * |a| :=
  force_over_mass_is_accel 1 1 1 one_pos one_pos one_ne_zero

/-- C7: Kepler's third law: for a mass M > 0 and radii r1, r2 > 0, the
quantities T1^2/r1^3 and T2^2/r2^3 computed from the returned periods agree
with relative error below 1e-6 (in the model they are exactly equal). -/
theorem kepler_third_law (M r1 r2 : ℝ) (hM : 0 < M) (h1 : 0 < r1)
    (h2 : 0 < r2) :
    ∃ t1 t2 : ℝ,
      orbital_period (FP.fin M) (FP.fin r1) = FP.fin t1 ∧
      orbital_period (FP.fin M) (FP.fin r2) = FP.fin t2 ∧
      |t1 ^ 2 / r1 ^ 3 - t2 ^ 2 / r2 ^ 3| < 1e-6 * |t2 ^ 2 / r2 ^ 3| := by
  have hG := G_pos
  have hPI := PI_pos
  refine ⟨_, _, orbital_period_eval M r1 hM h1, orbital_period_eval M r2 hM h2, ?_⟩
  have key : ∀ r : ℝ, 0 < r →
      (2 * PI * Real.sqrt (r ^ 3 / (G * M))) ^ 2 / r ^ 3 =
        4 * PI ^ 2 / (G * M) := by
    intro r hr
    have hx : (0:ℝ) ≤ r ^ 3 / (G * M) := by positivity
    rw [mul_pow, mul_pow, Real.sq_sqrt hx]
    field_simp
    ring
  rw [key r1 h1, key r2 h2, sub_self, abs_zero,
    abs_of_pos (by positivity : (0:ℝ) < 4 * PI ^ 2 / (G * M))]
  positivity

/-- Witness for C7 at M = 1, r1 = 1, r2 = 2. -/
theorem kepler_third_law_witness :
    ∃ t1 t2 : ℝ,
      orbital_period (FP.fin 1) (FP.fin 1) = FP.fin t1 ∧
      orbital_period (FP.fin 1) (FP.fin 2) = FP.fin t2 ∧
      |t1 ^ 2 / 1 ^ 3 - t2 ^ 2 / 2 ^ 3| < 1e-6 * |t2 ^ 2 / 2 ^ 3| :=
  kepler_third_law 1 1 2 one_pos one_pos two_pos

/-- C8: the concrete call escape_velocity(5.972e24, 6.371e6) is within 1%
relative error of 11186 m/s. -/
theorem escape_velocity_earth_reference :
    ∃ v : ℝ,
      escape_velocity (FP.fin EARTH_MASS) (FP.fin EARTH_RADIUS) = FP.fin v ∧
      |v - 11186| < 0.01 * 11186 := by
  have hM : (0:ℝ) < EARTH_MASS := by norm_num [EARTH_MASS]
  have hr : (0:ℝ) < EARTH_RADIUS := by norm_num [EARTH_RADIUS]
  refine ⟨_, escape_velocity_eval EARTH_MASS EARTH_RADIUS hM hr, ?_⟩
  have hlow : (11185 : ℝ) ≤ Real.sqrt (2 * G * EARTH_MASS / EARTH_RADIUS) := by
    rw [Real.le_sqrt' (by norm_num)]
    norm_num [G, EARTH_MASS, EARTH_RADIUS]
  have hhigh : Real.sqrt (2 * G * EARTH_MASS / EARTH_RADIUS) < 11187 := by
    rw [Real.sqrt_lt' (by norm_num)]
    norm_num [G, EARTH_MASS, EARTH_RADIUS]
  rw [abs_sub_lt_iff]
  constructor <;> linarith
